import Mathlib

/-!
# Verification of the obsidian-ai-privacy-audit plugin

Shallow embedding of the two implementation files of the plugin
(`src/main.ts`, a fetch-based variant, and the `requestUrl`-based variant)
and proofs about the audit requester, settings store and result panel.

Modelling conventions:
* JavaScript dynamic values coming from JSON are modelled by `JValue`.
* The single outbound HTTP call is modelled by passing the `HttpResponse`
  the remote would return as an explicit argument; a field of the response
  carries the result of the host JSON parser on the body text.
* JavaScript string falsiness (`!s`) on strings is `s = ""`; numeric
  falsiness is `n = 0`.
-/

/-- JSON values as delivered by the host JSON parser (dynamic JS values). -/
inductive JValue where
  | null
  | bool (b : Bool)
  | num (n : Int)
  | str (s : String)
  | arr (elems : List JValue)
  | obj (fields : List (String × JValue))

/-- JavaScript truthiness of a `JValue` (NaN is not modelled). -/
def jsTruthy : JValue → Bool
  | .null => false
  | .bool b => b
  | .num n => n != 0
  | .str s => s != ""
  | .arr _ => true
  | .obj _ => true

/-- Property access `v.k` on a dynamic value: object lookup, otherwise `undefined`
(modelled as `none`). -/
def jgetField (v : JValue) (key : String) : Option JValue :=
  match v with
  | .obj fields => (fields.find? (fun kv => kv.1 = key)).map Prod.snd
  | _ => none

/-- Index access `v[i]` on a dynamic value: array indexing, otherwise `undefined`. -/
def jindex (v : JValue) (i : Nat) : Option JValue :=
  match v with
  | .arr elems => elems.get? i
  | _ => none

mutual

/-- JavaScript `String(...)` coercion of a dynamic value. -/
def jsString : JValue → String
  | .null => "null"
  | .bool b => if b then "true" else "false"
  | .num n => toString n
  | .str s => s
  | .arr elems => jsStringList elems
  | .obj _ => "[object Object]"

/-- Array-to-string coercion: elements joined by commas. -/
def jsStringList : List JValue → String
  | [] => ""
  | [v] => jsString v
  | v :: rest => jsString v ++ "," ++ jsStringList rest

end

/-- The settings record `PrivacyAuditSettings` of both implementation files. -/
structure PrivacyAuditSettings where
  openaiApiKey : String
  model : String
  systemPrompt : String
  maxTokens : Int
deriving DecidableEq, Repr

/-- The constant `DEFAULT_SYSTEM_PROMPT`, identical in both implementation files. -/
def DEFAULT_SYSTEM_PROMPT : String :=
  "You are a pragmatic privacy, security, and OSINT risk auditor for personal notes and blog posts.\n\nYour job is to highlight ONLY clearly high-risk issues that a realistic blogger should actually fix. Treat normal human self-expression as acceptable. Do NOT flag or over-explain low- or medium-risk items.\n\nThink in terms of: “Would this materially help a malicious stranger target or impersonate this person?”\n\nClassify something as HIGH-RISK when it clearly fits one of these categories:\n\n1. Specific people and identities\n   - Full names of other private individuals (friends, coworkers, family) who did not choose to be public.\n   - The author’s full legal name, if the text suggests the blog is meant to be pseudonymous.\n   - Names paired with strong context that makes them easily searchable (e.g., “my boss John Smith at XCompany in [city]”).\n\n2. Locations and routines\n   - Home address, apartment number, building name, or very precise home location.\n   - Detailed travel plans in the future with specific dates AND places AND lodging details.\n   - ANY repeated routine (daily/weekly/etc.) that includes BOTH:\n     - a time or time window (specific or approximate, e.g. “around 6pm”, “before work”, “after my 9–5”), AND\n     - a reasonably specific place (park entrance, specific bar, gym, subway station, recurring meetup venue, etc.).\n     These predictable routines are ALWAYS high-risk, even if everything else in the note seems harmless.\n\n3. Workplace and sensitive professional context\n   - Exact company + team + city combined with internal tools, incidents, or confidential-sounding details.\n   - Information that would make it easy for an attacker to impersonate IT/security/HR for that workplace.\n\n4. Accounts, secrets, and security posture\n   - Usernames or IDs tied to sensitive accounts (email, banking, GitHub, cloud, password managers) WHEN they are clearly real and in active use.\n   - API keys, access tokens, secrets, private URLs, or webhook endpoints of any kind.\n   - Very weak security habits described in a way that would be trivial to exploit (e.g., “I use the same password for everything and never use 2FA”).\n\n5. Anything that would be obviously regrettable if shown to a stranger who wanted to harm or harass the author.\n\nWhen in doubt about a borderline detail:\n- If it clearly allows tracking or impersonation by itself, treat as HIGH-RISK.\n- If it only becomes risky when combined with other info and is very typical for personal blogging, at most mention it as a minor observation.\n\nOUTPUT FORMAT (markdown):\n\nStart with a short summary (1–3 sentences).\n\nThen:\n\n## High-Risk Items\n- If there are high-risk issues, list each as:\n  - **Snippet:** short quote or paraphrase\n  - **Why it’s risky:** one or two sentences, focused on attacker use\n  - **Suggested change:** a practical rewrite or mitigation\n- If there are no high-risk items, say:\n  - “No clear high-risk privacy or security issues detected. This post looks reasonable for a typical personal blog.”\n\n## Optional Minor Observations\n- At most 3 quick bullets for optional small improvements.\n- Only include items that are genuinely useful to consider; skip vague or nitpicky advice entirely.\n"

/-- The constant `DEFAULT_SETTINGS`, identical in both implementation files. -/
def DEFAULT_SETTINGS : PrivacyAuditSettings :=
  { openaiApiKey := ""
  , model := "gpt-4.1-mini"
  , systemPrompt := DEFAULT_SYSTEM_PROMPT
  , maxTokens := 900 }

/-- The view-type constant `PRIVACY_AUDIT_VIEW`. -/
def PRIVACY_AUDIT_VIEW : String := "privacy-audit-view"

/-- One entry of the `messages` array of the chat-completion request body. -/
structure ChatMessage where
  role : String
  content : String
deriving DecidableEq, Repr

/-- The JSON request body passed to `JSON.stringify` in `callOpenAI`. -/
structure RequestBody where
  model : String
  messages : List ChatMessage
  temperature : ℚ
  max_tokens : Int
deriving DecidableEq, Repr

/-- The HTTP request issued by `callOpenAI` (URL, method, headers, body). -/
structure HttpRequest where
  url : String
  method : String
  contentType : String
  authorization : String
  body : RequestBody
deriving DecidableEq, Repr

/-- Request body built by `callOpenAI` in `src/main.ts` (fetch variant):
`model`/`systemPrompt`/`maxTokens` fall back to defaults when falsy, the user
message is the fixed prefix (with an ampersand), a blank line, then the note. -/
def buildBody_main (settings : PrivacyAuditSettings) (noteContent : String) : RequestBody :=
  let model := if settings.model = "" then "gpt-4.1-mini" else settings.model
  let systemPrompt := if settings.systemPrompt = "" then DEFAULT_SYSTEM_PROMPT else settings.systemPrompt
  let maxTokens := if settings.maxTokens = 0 then 900 else settings.maxTokens
  { model := model
  , messages :=
      [ { role := "system", content := systemPrompt }
      , { role := "user"
        , content := "Here is the full text of my note. Please perform the privacy & security audit described:\n\n" ++ noteContent } ]
  , temperature := 1/10
  , max_tokens := maxTokens }

/-- Request body built by `callOpenAI` in the `requestUrl` variant: identical
except the user-message prefix spells out the word between the two nouns. -/
def buildBody_part001 (settings : PrivacyAuditSettings) (noteContent : String) : RequestBody :=
  let model := if settings.model = "" then "gpt-4.1-mini" else settings.model
  let systemPrompt := if settings.systemPrompt = "" then DEFAULT_SYSTEM_PROMPT else settings.systemPrompt
  let maxTokens := if settings.maxTokens = 0 then 900 else settings.maxTokens
  { model := model
  , messages :=
      [ { role := "system", content := systemPrompt }
      , { role := "user"
        , content := "Here is the full text of my note. Please perform the privacy and security audit described:\n\n" ++ noteContent } ]
  , temperature := 1/10
  , max_tokens := maxTokens }

/-- The full HTTP request of the fetch variant. -/
def request_main (settings : PrivacyAuditSettings) (apiKey noteContent : String) : HttpRequest :=
  { url := "https://api.openai.com/v1/chat/completions"
  , method := "POST"
  , contentType := "application/json"
  , authorization := "Bearer " ++ apiKey
  , body := buildBody_main settings noteContent }

/-- The full HTTP request of the `requestUrl` variant. -/
def request_part001 (settings : PrivacyAuditSettings) (apiKey noteContent : String) : HttpRequest :=
  { url := "https://api.openai.com/v1/chat/completions"
  , method := "POST"
  , contentType := "application/json"
  , authorization := "Bearer " ++ apiKey
  , body := buildBody_part001 settings noteContent }

/-- The error kinds of the audit requester (spec section 7). Each constructor
tags one distinct failure site of the source. -/
inductive AuditError where
  | MissingApiKey
  | EmptyInput
  | RemoteError (status : Nat) (body : String)
  | ParseError (engineMsg : String)
  | EmptyResponse
  | PanelUnavailable
deriving DecidableEq, Repr

/-- A JavaScript runtime failure that is not one of the designed error kinds. -/
inductive JsError where
  | typeErrorUndefinedView
deriving DecidableEq, Repr

/-- The terminal HTTP response of the single outbound call. `jsonParsed` is
the host JSON parser applied to `text` (an `Except` carrying the engine
message on malformed input). -/
structure HttpResponse where
  status : Nat
  statusText : String
  text : String
  jsonParsed : Except String JValue

/-- Extraction `data.choices?.[0]?.message?.content` (optional chaining). -/
def extractContent (data : JValue) : Option JValue :=
  ((jgetField data "choices").bind (fun c => jindex c 0)).bind
    (fun ch => (jgetField ch "message").bind (fun m => jgetField m "content"))

/-- Response handling of `callOpenAI` in `src/main.ts`: `res.ok` is status in
[200, 300); non-ok throws with status, statusText and body; then JSON parse;
then the content extraction with the `!message` falsiness check. -/
def handleResponse_main (resp : HttpResponse) : Except AuditError JValue :=
  if resp.status < 200 ∨ 300 ≤ resp.status then
    .error (.RemoteError resp.status resp.text)
  else
    match resp.jsonParsed with
    | .error m => .error (.ParseError m)
    | .ok data =>
      match extractContent data with
      | none => .error .EmptyResponse
      | some message => if jsTruthy message then .ok message else .error .EmptyResponse

/-- Response handling of `callOpenAI` in the `requestUrl` variant: the status
check is written `status < 200 || status >= 300`; otherwise identical. -/
def handleResponse_part001 (resp : HttpResponse) : Except AuditError JValue :=
  if resp.status < 200 ∨ resp.status ≥ 300 then
    .error (.RemoteError resp.status resp.text)
  else
    match resp.jsonParsed with
    | .error m => .error (.ParseError m)
    | .ok data =>
      match extractContent data with
      | none => .error .EmptyResponse
      | some message => if jsTruthy message then .ok message else .error .EmptyResponse

/-- The JavaScript `Error.message` text thrown by `callOpenAI` in `src/main.ts`. -/
def errorMessage_main (resp : HttpResponse) : AuditError → String
  | .RemoteError status body =>
      "OpenAI API error: " ++ toString status ++ " " ++ resp.statusText ++ " - " ++ body
  | .ParseError m => m
  | _ => "OpenAI API returned no message content."

/-- The JavaScript `Error.message` text thrown by `callOpenAI` in the
`requestUrl` variant (no statusText in the wording). -/
def errorMessage_part001 : AuditError → String
  | .RemoteError status body => "OpenAI API error: " ++ toString status ++ " - " ++ body
  | .ParseError m => m
  | _ => "OpenAI API returned no message content."

/-- One workspace leaf: its registered view type and displayed text content. -/
structure Leaf where
  viewType : String
  content : String
deriving DecidableEq, Repr

/-- The host workspace: the list of open leaves, and whether
`getRightLeaf(false)` can produce a leaf in the right sidebar. -/
structure Workspace where
  leaves : List Leaf
  rightLeafAvailable : Bool
deriving DecidableEq, Repr

/-- The composite `getLeavesOfType(PRIVACY_AUDIT_VIEW)[0]` followed by `setContent(text)`:
overwrite the content of the first leaf of the audit view type, `none` when no
such leaf exists. -/
def setFirstAuditLeaf (text : String) : List Leaf → Option (List Leaf)
  | [] => none
  | l :: ls =>
    if l.viewType = PRIVACY_AUDIT_VIEW then
      some ({ viewType := l.viewType, content := text } :: ls)
    else
      (setFirstAuditLeaf text ls).map (fun ls2 => l :: ls2)

instance instDecidableEqExceptLocal {ε α : Type} [DecidableEq ε] [DecidableEq α] :
    DecidableEq (Except ε α) := fun a b =>
  match a, b with
  | .error e₁, .error e₂ =>
    match decEq e₁ e₂ with
    | isTrue h => isTrue (h ▸ rfl)
    | isFalse h => isFalse (fun hh => h (Except.error.inj hh))
  | .error _, .ok _ => isFalse Except.noConfusion
  | .ok _, .error _ => isFalse Except.noConfusion
  | .ok a₁, .ok a₂ =>
    match decEq a₁ a₂ with
    | isTrue h => isTrue (h ▸ rfl)
    | isFalse h => isFalse (fun hh => h (Except.ok.inj hh))

/-- Outcome of one `showAuditInSidebar` call of the `requestUrl` variant. -/
structure ShowResult where
  workspace : Workspace
  notices : List String
  outcome : Except AuditError Unit
deriving DecidableEq, Repr

/-- Function `showAuditInSidebar` of the `requestUrl` variant: reuse the first existing
audit leaf; else create one in the right sidebar and set its view state and
content; else show a Notice and return (the result is dropped). -/
def showAuditInSidebar_part001 (auditText : String) (w : Workspace) : ShowResult :=
  match setFirstAuditLeaf auditText w.leaves with
  | some ls => ⟨{ w with leaves := ls }, [], .ok ()⟩
  | none =>
    if w.rightLeafAvailable then
      ⟨{ w with leaves := w.leaves ++ [⟨PRIVACY_AUDIT_VIEW, auditText⟩] }, [], .ok ()⟩
    else
      ⟨w, ["Privacy audit: could not open the side panel for results."], .error .PanelUnavailable⟩

/-- Function `showAuditInSidebar` of `src/main.ts`: reuse the first existing audit leaf;
else create one via `getRightLeaf(false)`. When no right leaf exists it only
logs to the console and then dereferences `leaf?.view` — `view.setContent`
throws a TypeError on the undefined view. -/
def showAuditInSidebar_main (auditText : String) (w : Workspace) :
    Workspace × Except JsError Unit :=
  match setFirstAuditLeaf auditText w.leaves with
  | some ls => ({ w with leaves := ls }, .ok ())
  | none =>
    if w.rightLeafAvailable then
      ({ w with leaves := w.leaves ++ [⟨PRIVACY_AUDIT_VIEW, auditText⟩] }, .ok ())
    else
      (w, .error .typeErrorUndefinedView)

/-- JavaScript `String.prototype.trim`: strip whitespace from both ends
(executable translation; the host's built-in `.trim` used by `runAudit`). -/
def jsTrim (s : String) : String :=
  ⟨((s.data.dropWhile Char.isWhitespace).reverse.dropWhile Char.isWhitespace).reverse⟩

/-- A failure of one `runAudit` run: either one of the designed error kinds or
an uncaught-then-caught JavaScript runtime error. -/
inductive RunError where
  | audit (e : AuditError)
  | js (e : JsError)
deriving DecidableEq, Repr

/-- The observable outcome of one `runAudit` run: the Notices shown in order,
whether the network call was made, the request that was sent (if any), the
workspace after the run, and the abstract result. -/
structure RunOutcome where
  notices : List String
  networkCalled : Bool
  sentRequest : Option HttpRequest
  workspace : Workspace
  outcome : Except RunError Unit
deriving DecidableEq, Repr

/-- Function `runAudit` of `src/main.ts`: trim-check the api key, then the note text,
then perform the single call; any thrown error is caught and reported with a
fixed Notice. `showAuditInSidebar` runs inside the try, so its TypeError on a
missing right leaf is caught by the same handler. -/
def runAudit_main (settings : PrivacyAuditSettings) (noteText : String)
    (resp : HttpResponse) (w : Workspace) : RunOutcome :=
  let apiKey := jsTrim settings.openaiApiKey
  if apiKey = "" then
    { notices := ["Privacy Audit: Please set your OpenAI API key in the plugin settings."]
    , networkCalled := false, sentRequest := none, workspace := w
    , outcome := .error (.audit .MissingApiKey) }
  else if jsTrim noteText = "" then
    { notices := ["Privacy Audit: Current note is empty."]
    , networkCalled := false, sentRequest := none, workspace := w
    , outcome := .error (.audit .EmptyInput) }
  else
    let req := request_main settings apiKey noteText
    match handleResponse_main resp with
    | .error e =>
      { notices := ["Privacy Audit: Running audit…",
                    "Privacy Audit: Failed to get response from OpenAI (see console for details)."]
      , networkCalled := true, sentRequest := some req, workspace := w
      , outcome := .error (.audit e) }
    | .ok v =>
      match showAuditInSidebar_main (jsString v) w with
      | (w2, .ok _) =>
        { notices := ["Privacy Audit: Running audit…",
                      "Privacy Audit: Results written to side panel."]
        , networkCalled := true, sentRequest := some req, workspace := w2
        , outcome := .ok () }
      | (w2, .error je) =>
        { notices := ["Privacy Audit: Running audit…",
                      "Privacy Audit: Failed to get response from OpenAI (see console for details)."]
        , networkCalled := true, sentRequest := some req, workspace := w2
        , outcome := .error (.js je) }

/-- Function `runAudit` of the `requestUrl` variant: same checks; the catch handler
appends the thrown error message to the failure Notice; `showAuditInSidebar`
returns normally even when the panel is unavailable, so the success Notice is
still shown after it. -/
def runAudit_part001 (settings : PrivacyAuditSettings) (noteText : String)
    (resp : HttpResponse) (w : Workspace) : RunOutcome :=
  let apiKey := jsTrim settings.openaiApiKey
  if apiKey = "" then
    { notices := ["Privacy audit: please set your OpenAI API key in the plugin settings."]
    , networkCalled := false, sentRequest := none, workspace := w
    , outcome := .error (.audit .MissingApiKey) }
  else if jsTrim noteText = "" then
    { notices := ["Privacy audit: current note is empty."]
    , networkCalled := false, sentRequest := none, workspace := w
    , outcome := .error (.audit .EmptyInput) }
  else
    let req := request_part001 settings apiKey noteText
    match handleResponse_part001 resp with
    | .error e =>
      { notices := ["Privacy audit: running audit…",
                    "Privacy audit: failed to get response from OpenAI. " ++ errorMessage_part001 e]
      , networkCalled := true, sentRequest := some req, workspace := w
      , outcome := .error (.audit e) }
    | .ok v =>
      let s := showAuditInSidebar_part001 (jsString v) w
      { notices := ["Privacy audit: running audit…"] ++ s.notices
                     ++ ["Privacy audit: results written to side panel."]
      , networkCalled := true, sentRequest := some req, workspace := s.workspace
      , outcome := .ok () }

/-- The persisted settings blob as read back by `loadData`: for each known key,
`none` when the key is absent, otherwise the stored dynamic value. -/
structure PersistedData where
  openaiApiKey : Option JValue
  model : Option JValue
  systemPrompt : Option JValue
  maxTokens : Option JValue

/-- A settings object whose fields are dynamic values, as produced by
`Object.assign` at runtime (no shape validation happens). -/
structure SettingsObject where
  openaiApiKey : JValue
  model : JValue
  systemPrompt : JValue
  maxTokens : JValue

/-- The value `DEFAULT_SETTINGS` seen as a dynamic settings object. -/
def defaultSettingsObject : SettingsObject :=
  { openaiApiKey := .str ""
  , model := .str "gpt-4.1-mini"
  , systemPrompt := .str DEFAULT_SYSTEM_PROMPT
  , maxTokens := .num 900 }

/-- Function `loadSettings` of both implementation files:
`Object.assign({}, DEFAULT_SETTINGS, stored)` — a key present in the stored
blob wins wholesale (whatever its value), an absent key keeps the default.
`Object.assign` ignores a null/undefined source, and the variant writes this
as `stored ?? \x7b\x7d`. -/
def loadSettings (stored : Option PersistedData) : SettingsObject :=
  match stored with
  | none => defaultSettingsObject
  | some d =>
    { openaiApiKey := d.openaiApiKey.getD defaultSettingsObject.openaiApiKey
    , model := d.model.getD defaultSettingsObject.model
    , systemPrompt := d.systemPrompt.getD defaultSettingsObject.systemPrompt
    , maxTokens := d.maxTokens.getD defaultSettingsObject.maxTokens }

/-- Function `callOpenAI` of `src/main.ts` as a whole: the request it sends and, given
the terminal response, the value it returns or the error it throws. -/
def callOpenAI_main (settings : PrivacyAuditSettings) (apiKey noteContent : String)
    (resp : HttpResponse) : HttpRequest × Except AuditError JValue :=
  (request_main settings apiKey noteContent, handleResponse_main resp)

/-- Function `callOpenAI` of the `requestUrl` variant as a whole. -/
def callOpenAI_part001 (settings : PrivacyAuditSettings) (apiKey noteContent : String)
    (resp : HttpResponse) : HttpRequest × Except AuditError JValue :=
  (request_part001 settings apiKey noteContent, handleResponse_part001 resp)

/-- A small valid settings value for concrete instances. -/
def sampleSettings : PrivacyAuditSettings := ⟨"sk-key", "gpt-4.1-mini", "audit prompt", 900⟩

/-- A workspace with no audit leaf and an allocatable right sidebar. -/
def sampleWorkspace : Workspace := ⟨[⟨"markdown", "my note"⟩], true⟩

/-- A simulated non-2xx response whose body is not valid JSON. -/
def deniedResponse : HttpResponse :=
  ⟨401, "Unauthorized", "bad key", .error "Unexpected token b in JSON at position 0"⟩

/-- A simulated well-formed 2xx response carrying a markdown result. -/
def okResponse : HttpResponse :=
  ⟨200, "OK", "json body",
   .ok (.obj [("choices", .arr [.obj [("message", .obj [("content", .str "## High-Risk Items")])]])])⟩

/-- A simulated 2xx response whose `choices[0].message.content` is the empty string. -/
def emptyContentResponse : HttpResponse :=
  ⟨200, "OK", "json body",
   .ok (.obj [("choices", .arr [.obj [("message", .obj [("content", .str "")])]])])⟩

/-- C1 counterexample: in `src/main.ts` the user message at the concrete input
(settings ⟨"sk-key", ...⟩, note "hello") is NOT the prefix claimed by the spec
("privacy and security audit") followed by a blank line and the note — the
source writes an ampersand. -/
theorem C1_counterexample :
    ((callOpenAI_main sampleSettings "sk-key" "hello" okResponse).1.body.messages.map
        ChatMessage.content).get? 1
      ≠ some ("Here is the full text of my note. Please perform the privacy and security audit described:\n\n"
                ++ "hello") := by
  decide

/-- C1 (amended): for every configuration and note text, each implementation
builds exactly two messages in order [system, user], and the user message is
that implementation's fixed prefix ("privacy & security audit" in
`src/main.ts`, "privacy and security audit" in the `requestUrl` variant)
followed by a blank line and the verbatim note text. -/
theorem C1_two_messages_user_content (settings : PrivacyAuditSettings)
    (apiKey noteText : String) (resp : HttpResponse) :
    ((callOpenAI_main settings apiKey noteText resp).1.body.messages.map ChatMessage.role
        = ["system", "user"]) ∧
    (((callOpenAI_main settings apiKey noteText resp).1.body.messages.map
        ChatMessage.content).get? 1
      = some ("Here is the full text of my note. Please perform the privacy & security audit described:\n\n"
                ++ noteText)) ∧
    ((callOpenAI_part001 settings apiKey noteText resp).1.body.messages.map ChatMessage.role
        = ["system", "user"]) ∧
    (((callOpenAI_part001 settings apiKey noteText resp).1.body.messages.map
        ChatMessage.content).get? 1
      = some ("Here is the full text of my note. Please perform the privacy and security audit described:\n\n"
                ++ noteText)) := by
  exact ⟨rfl, rfl, rfl, rfl⟩

/-- C2 counterexample: at a configuration with `maxTokens = 0` the request
built by `callOpenAI` carries `max_tokens = 900`, not the configured value
(the `||` fallback fires on every falsy field). -/
theorem C2_counterexample :
    (callOpenAI_main ⟨"sk-key", "gpt-4.1-mini", "audit prompt", 0⟩ "sk-key" "note"
        okResponse).1.body.max_tokens
      ≠ (PrivacyAuditSettings.mk "sk-key" "gpt-4.1-mini" "audit prompt" 0).maxTokens := by
  decide

/-- C2 (amended): for every configuration whose `systemPrompt` is non-empty
and whose `maxTokens` is non-zero, both implementations send the system
message equal to `config.systemPrompt`, `temperature = 1/10` and
`max_tokens = config.maxTokens`; falsy fields instead fall back to defaults. -/
theorem C2_system_temperature_max_tokens (settings : PrivacyAuditSettings)
    (apiKey noteText : String) (resp : HttpResponse)
    (hp : settings.systemPrompt ≠ "") (hm : settings.maxTokens ≠ 0) :
    (((callOpenAI_main settings apiKey noteText resp).1.body.messages.map
        ChatMessage.content).get? 0 = some settings.systemPrompt) ∧
    ((callOpenAI_main settings apiKey noteText resp).1.body.temperature = 1/10) ∧
    ((callOpenAI_main settings apiKey noteText resp).1.body.max_tokens = settings.maxTokens) ∧
    (((callOpenAI_part001 settings apiKey noteText resp).1.body.messages.map
        ChatMessage.content).get? 0 = some settings.systemPrompt) ∧
    ((callOpenAI_part001 settings apiKey noteText resp).1.body.temperature = 1/10) ∧
    ((callOpenAI_part001 settings apiKey noteText resp).1.body.max_tokens = settings.maxTokens) := by
  simp [callOpenAI_main, callOpenAI_part001, request_main, request_part001,
        buildBody_main, buildBody_part001, hp, hm]

/-- Witness for the amended C2 at a concrete valid configuration. -/
theorem C2_system_temperature_max_tokens_witness :
    (((callOpenAI_main sampleSettings "sk-key" "note" okResponse).1.body.messages.map
        ChatMessage.content).get? 0 = some sampleSettings.systemPrompt) ∧
    ((callOpenAI_main sampleSettings "sk-key" "note" okResponse).1.body.temperature = 1/10) ∧
    ((callOpenAI_main sampleSettings "sk-key" "note" okResponse).1.body.max_tokens
        = sampleSettings.maxTokens) ∧
    (((callOpenAI_part001 sampleSettings "sk-key" "note" okResponse).1.body.messages.map
        ChatMessage.content).get? 0 = some sampleSettings.systemPrompt) ∧
    ((callOpenAI_part001 sampleSettings "sk-key" "note" okResponse).1.body.temperature = 1/10) ∧
    ((callOpenAI_part001 sampleSettings "sk-key" "note" okResponse).1.body.max_tokens
        = sampleSettings.maxTokens) :=
  C2_system_temperature_max_tokens sampleSettings "sk-key" "note" okResponse
    (by decide) (by decide)

/-- C3 counterexample: with an empty api key AND an empty note, `runAudit`
fails with `MissingApiKey`, not `EmptyInput` — the note-empty clause of the
claim is false because the api-key check runs first. -/
theorem C3_counterexample :
    jsTrim "" = "" ∧
    (runAudit_main ⟨"", "gpt-4.1-mini", "audit prompt", 900⟩ "" deniedResponse
        sampleWorkspace).outcome = .error (.audit .MissingApiKey) ∧
    (runAudit_main ⟨"", "gpt-4.1-mini", "audit prompt", 900⟩ "" deniedResponse
        sampleWorkspace).outcome ≠ .error (.audit .EmptyInput) ∧
    (runAudit_part001 ⟨"", "gpt-4.1-mini", "audit prompt", 900⟩ "" deniedResponse
        sampleWorkspace).outcome = .error (.audit .MissingApiKey) ∧
    (runAudit_part001 ⟨"", "gpt-4.1-mini", "audit prompt", 900⟩ "" deniedResponse
        sampleWorkspace).outcome ≠ .error (.audit .EmptyInput) := by
  decide

/-- C3 (amended): a whitespace-only api key fails with `MissingApiKey` without
a network call; a non-blank api key together with a whitespace-only note fails
with `EmptyInput` without a network call — in both implementations, with the
api-key check taking precedence. -/
theorem C3_precondition_checks (settings : PrivacyAuditSettings) (noteText : String)
    (resp : HttpResponse) (w : Workspace) :
    (jsTrim settings.openaiApiKey = "" →
      (runAudit_main settings noteText resp w).outcome = .error (.audit .MissingApiKey) ∧
      (runAudit_main settings noteText resp w).networkCalled = false ∧
      (runAudit_part001 settings noteText resp w).outcome = .error (.audit .MissingApiKey) ∧
      (runAudit_part001 settings noteText resp w).networkCalled = false) ∧
    (jsTrim settings.openaiApiKey ≠ "" → jsTrim noteText = "" →
      (runAudit_main settings noteText resp w).outcome = .error (.audit .EmptyInput) ∧
      (runAudit_main settings noteText resp w).networkCalled = false ∧
      (runAudit_part001 settings noteText resp w).outcome = .error (.audit .EmptyInput) ∧
      (runAudit_part001 settings noteText resp w).networkCalled = false) := by
  constructor
  · intro h
    simp [runAudit_main, runAudit_part001, h]
  · intro h1 h2
    simp [runAudit_main, runAudit_part001, h1, h2]

/-- Witness for the amended C3: a whitespace api key, and a valid key with a
whitespace note, at concrete inputs. -/
theorem C3_precondition_checks_witness :
    ((runAudit_main ⟨" ", "gpt-4.1-mini", "audit prompt", 900⟩ "note" deniedResponse
        sampleWorkspace).outcome = .error (.audit .MissingApiKey) ∧
     (runAudit_main ⟨" ", "gpt-4.1-mini", "audit prompt", 900⟩ "note" deniedResponse
        sampleWorkspace).networkCalled = false ∧
     (runAudit_part001 ⟨" ", "gpt-4.1-mini", "audit prompt", 900⟩ "note" deniedResponse
        sampleWorkspace).outcome = .error (.audit .MissingApiKey) ∧
     (runAudit_part001 ⟨" ", "gpt-4.1-mini", "audit prompt", 900⟩ "note" deniedResponse
        sampleWorkspace).networkCalled = false) ∧
    ((runAudit_main sampleSettings "  " deniedResponse sampleWorkspace).outcome
        = .error (.audit .EmptyInput) ∧
     (runAudit_main sampleSettings "  " deniedResponse sampleWorkspace).networkCalled = false ∧
     (runAudit_part001 sampleSettings "  " deniedResponse sampleWorkspace).outcome
        = .error (.audit .EmptyInput) ∧
     (runAudit_part001 sampleSettings "  " deniedResponse sampleWorkspace).networkCalled
        = false) :=
  ⟨(C3_precondition_checks ⟨" ", "gpt-4.1-mini", "audit prompt", 900⟩ "note"
      deniedResponse sampleWorkspace).1 (by decide),
   (C3_precondition_checks sampleSettings "  " deniedResponse sampleWorkspace).2
      (by decide) (by decide)⟩

/-- C4: every response with a non-2xx status makes both implementations of
`callOpenAI` fail with `RemoteError` carrying exactly that response's status
and body text; no success value is returned. -/
theorem C4_remote_error (settings : PrivacyAuditSettings) (apiKey noteText : String)
    (resp : HttpResponse) (h : resp.status < 200 ∨ 300 ≤ resp.status) :
    (callOpenAI_main settings apiKey noteText resp).2
      = .error (.RemoteError resp.status resp.text) ∧
    (callOpenAI_part001 settings apiKey noteText resp).2
      = .error (.RemoteError resp.status resp.text) := by
  constructor <;>
    simp [callOpenAI_main, callOpenAI_part001, handleResponse_main, handleResponse_part001,
          ge_iff_le, h]

/-- Witness for C4: the simulated 401 response. -/
theorem C4_remote_error_witness :
    (callOpenAI_main sampleSettings "sk-key" "note" deniedResponse).2
      = .error (.RemoteError 401 "bad key") ∧
    (callOpenAI_part001 sampleSettings "sk-key" "note" deniedResponse).2
      = .error (.RemoteError 401 "bad key") :=
  C4_remote_error sampleSettings "sk-key" "note" deniedResponse (by decide)

/-- C5 counterexample: a persisted `maxTokens` of the wrong shape (a string)
does NOT fall back to the default — `Object.assign` copies it verbatim. -/
theorem C5_counterexample :
    (loadSettings (some ⟨none, none, none, some (.str "not a number")⟩)).maxTokens
      = .str "not a number" ∧
    (loadSettings (some ⟨none, none, none, some (.str "not a number")⟩)).maxTokens
      ≠ defaultSettingsObject.maxTokens := by
  refine ⟨rfl, fun h => ?_⟩
  simp [loadSettings, defaultSettingsObject] at h

/-- C5 (amended): `load` merges the persisted blob over the defaults key by
key: an absent blob yields all defaults, a blob with only `apiKey` yields that
key over otherwise-default fields, and a present key wins wholesale whatever
the shape of its value (no shape validation is performed). -/
theorem C5_load_merge (k : JValue) :
    loadSettings none = defaultSettingsObject ∧
    loadSettings (some ⟨some k, none, none, none⟩)
      = { defaultSettingsObject with openaiApiKey := k } ∧
    (∀ d : PersistedData, ∀ v : JValue, d.maxTokens = some v →
      (loadSettings (some d)).maxTokens = v) ∧
    (∀ d : PersistedData, d.maxTokens = none →
      (loadSettings (some d)).maxTokens = defaultSettingsObject.maxTokens) := by
  refine ⟨rfl, rfl, ?_, ?_⟩
  · intro d v h
    simp [loadSettings, h]
  · intro d h
    simp [loadSettings, h]

/-- Witness for the amended C5 at concrete blobs. -/
theorem C5_load_merge_witness :
    loadSettings none = defaultSettingsObject ∧
    loadSettings (some ⟨some (.str "sk-live"), none, none, none⟩)
      = { defaultSettingsObject with openaiApiKey := .str "sk-live" } ∧
    (loadSettings (some ⟨none, none, none, some (.num 500)⟩)).maxTokens = .num 500 ∧
    (loadSettings (some ⟨some (.str "sk-live"), none, none, none⟩)).maxTokens
      = defaultSettingsObject.maxTokens :=
  ⟨(C5_load_merge (.str "sk-live")).1,
   (C5_load_merge (.str "sk-live")).2.1,
   (C5_load_merge (.str "sk-live")).2.2.1 ⟨none, none, none, some (.num 500)⟩ (.num 500) rfl,
   (C5_load_merge (.str "sk-live")).2.2.2 ⟨some (.str "sk-live"), none, none, none⟩ rfl⟩

/-- The audit leaves of a workspace (the live result-panel instances). -/
def auditLeaves (w : Workspace) : List Leaf :=
  w.leaves.filter (fun l => l.viewType = PRIVACY_AUDIT_VIEW)

/-- The displayed texts of the audit leaves. -/
def auditContents (w : Workspace) : List String :=
  (auditLeaves w).map Leaf.content

/-- A sequence of `show` calls of the `requestUrl` variant, threading the
workspace. -/
def showSeq_part001 (texts : List String) (w : Workspace) : Workspace :=
  texts.foldl (fun wa t => (showAuditInSidebar_part001 t wa).workspace) w

/-- A sequence of `show` calls of the fetch variant, threading the workspace. -/
def showSeq_main (texts : List String) (w : Workspace) : Workspace :=
  texts.foldl (fun wa t => (showAuditInSidebar_main t wa).1) w

lemma setFirstAuditLeaf_eq_none {t : String} : ∀ {ls : List Leaf},
    setFirstAuditLeaf t ls = none ↔
      ls.filter (fun l => l.viewType = PRIVACY_AUDIT_VIEW) = [] := by
  intro ls
  induction ls with
  | nil => simp [setFirstAuditLeaf]
  | cons l ls ih =>
    by_cases h : l.viewType = PRIVACY_AUDIT_VIEW
    · simp [setFirstAuditLeaf, h, List.filter_cons]
    · simp [setFirstAuditLeaf, h, List.filter_cons, ih]

lemma setFirstAuditLeaf_eq_some {t : String} : ∀ {ls ls2 : List Leaf},
    setFirstAuditLeaf t ls = some ls2 →
    ls2.filter (fun l => l.viewType = PRIVACY_AUDIT_VIEW)
      = ⟨PRIVACY_AUDIT_VIEW, t⟩ ::
          (ls.filter (fun l => l.viewType = PRIVACY_AUDIT_VIEW)).tail := by
  intro ls
  induction ls with
  | nil => intro ls2 h; simp [setFirstAuditLeaf] at h
  | cons l ls ih =>
    intro ls2 h
    by_cases hv : l.viewType = PRIVACY_AUDIT_VIEW
    · simp only [setFirstAuditLeaf, if_pos hv, Option.some.injEq] at h
      subst h
      simp [List.filter_cons, hv]
    · simp only [setFirstAuditLeaf, if_neg hv, Option.map_eq_some'] at h
      obtain ⟨ls2x, hset, rfl⟩ := h
      simp [List.filter_cons, hv, ih hset]

/-- One `show` step: from an empty-panel workspace with an allocatable right
sidebar, or from a single-panel workspace, the result is exactly one audit
leaf holding the new text, and the right-sidebar flag is unchanged. -/
lemma show_step_part001 (t : String) (w : Workspace)
    (h : (auditLeaves w = [] ∧ w.rightLeafAvailable = true) ∨ ∃ x, auditLeaves w = [x]) :
    auditLeaves (showAuditInSidebar_part001 t w).workspace = [⟨PRIVACY_AUDIT_VIEW, t⟩] ∧
    (showAuditInSidebar_part001 t w).workspace.rightLeafAvailable = w.rightLeafAvailable := by
  unfold showAuditInSidebar_part001
  cases hset : setFirstAuditLeaf t w.leaves with
  | none =>
    have hfil : auditLeaves w = [] := setFirstAuditLeaf_eq_none.mp hset
    have hr : w.rightLeafAvailable = true := by
      rcases h with ⟨_, hr⟩ | ⟨x, hx⟩
      · exact hr
      · rw [hfil] at hx; cases hx
    simp [hr, auditLeaves, List.filter_append, List.filter_cons]
    simpa [auditLeaves] using hfil
  | some ls2 =>
    have hx : ∃ x, auditLeaves w = [x] := by
      rcases h with ⟨hfil, _⟩ | hx
      · rw [setFirstAuditLeaf_eq_none.mpr hfil] at hset; cases hset
      · exact hx
    obtain ⟨x, hx⟩ := hx
    have := setFirstAuditLeaf_eq_some hset
    constructor
    · show List.filter _ ls2 = _
      rw [this]
      have : (w.leaves.filter (fun l => l.viewType = PRIVACY_AUDIT_VIEW)).tail = [] := by
        have : auditLeaves w = [x] := hx
        unfold auditLeaves at this
        rw [this]
        rfl
      rw [this]
    · rfl

/-- Folding further `show` calls over a single-panel workspace keeps exactly
one audit leaf, holding the text of the last call (default: the current one). -/
lemma showSeq_part001_inv : ∀ (ts : List String) (w : Workspace) (c : String),
    w.rightLeafAvailable = true →
    auditLeaves w = [⟨PRIVACY_AUDIT_VIEW, c⟩] →
    auditLeaves (showSeq_part001 ts w) = [⟨PRIVACY_AUDIT_VIEW, ts.getLastD c⟩] ∧
    (showSeq_part001 ts w).rightLeafAvailable = true := by
  intro ts
  induction ts with
  | nil => intro w c _ hw; exact ⟨hw, by assumption⟩
  | cons t ts ih =>
    intro w c hr hw
    have hstep := show_step_part001 t w (Or.inr ⟨_, hw⟩)
    have hr2 : (showAuditInSidebar_part001 t w).workspace.rightLeafAvailable = true := by
      rw [hstep.2]; exact hr
    have := ih (showAuditInSidebar_part001 t w).workspace t hr2 hstep.1
    refine ⟨?_, this.2⟩
    rw [show showSeq_part001 (t :: ts) w
          = showSeq_part001 ts (showAuditInSidebar_part001 t w).workspace from rfl]
    rw [this.1, List.getLastD_cons c t ts]

/-- The workspace transition of `showAuditInSidebar` is the same in both
implementation files (they differ only in failure reporting). -/
lemma show_ws_main_eq_part001 (t : String) (w : Workspace) :
    (showAuditInSidebar_main t w).1 = (showAuditInSidebar_part001 t w).workspace := by
  unfold showAuditInSidebar_main showAuditInSidebar_part001
  cases setFirstAuditLeaf t w.leaves with
  | some ls => rfl
  | none => by_cases hr : w.rightLeafAvailable <;> simp [hr]

lemma showSeq_main_eq_part001 : ∀ (ts : List String) (w : Workspace),
    showSeq_main ts w = showSeq_part001 ts w := by
  intro ts
  induction ts with
  | nil => intro w; rfl
  | cons t ts ih =>
    intro w
    show showSeq_main ts (showAuditInSidebar_main t w).1 = _
    rw [show_ws_main_eq_part001, ih]
    rfl

/-- C6: starting from a workspace with no audit panel and an allocatable right
sidebar, any non-empty sequence of `show` calls keeps at most one live panel
instance at every point (the first call creates it, later calls reuse it), and
afterwards the single panel displays exactly the last call's argument — in
both implementation files. -/
theorem C6_single_panel_overwrite (w : Workspace) (ts : List String)
    (h0 : auditLeaves w = []) (hr : w.rightLeafAvailable = true) (hne : ts ≠ []) :
    (∀ n : ℕ, (auditContents (showSeq_part001 (ts.take n) w)).length ≤ 1) ∧
    auditContents (showSeq_part001 ts w) = [ts.getLast hne] ∧
    (∀ n : ℕ, (auditContents (showSeq_main (ts.take n) w)).length ≤ 1) ∧
    auditContents (showSeq_main ts w) = [ts.getLast hne] := by
  obtain ⟨t, ts', rfl⟩ : ∃ t ts', ts = t :: ts' := by
    cases ts with
    | nil => exact absurd rfl hne
    | cons a l => exact ⟨a, l, rfl⟩
  have hstep := show_step_part001 t w (Or.inl ⟨h0, hr⟩)
  have hr2 : (showAuditInSidebar_part001 t w).workspace.rightLeafAvailable = true := by
    rw [hstep.2]; exact hr
  have hbound : ∀ n : ℕ,
      (auditContents (showSeq_part001 ((t :: ts').take n) w)).length ≤ 1 := by
    intro n
    cases n with
    | zero =>
      show (auditContents (showSeq_part001 [] w)).length ≤ 1
      simp [showSeq_part001, auditContents, h0]
    | succ m =>
      have hinv := showSeq_part001_inv (ts'.take m)
        (showAuditInSidebar_part001 t w).workspace t hr2 hstep.1
      show (auditContents (showSeq_part001 (t :: ts'.take m) w)).length ≤ 1
      rw [show showSeq_part001 (t :: ts'.take m) w
            = showSeq_part001 (ts'.take m) (showAuditInSidebar_part001 t w).workspace
          from rfl]
      unfold auditContents
      rw [hinv.1]
      simp
  have heq : auditContents (showSeq_part001 (t :: ts') w) = [(t :: ts').getLast hne] := by
    have hinv := showSeq_part001_inv ts'
      (showAuditInSidebar_part001 t w).workspace t hr2 hstep.1
    rw [show showSeq_part001 (t :: ts') w
          = showSeq_part001 ts' (showAuditInSidebar_part001 t w).workspace from rfl]
    unfold auditContents
    rw [hinv.1, List.getLast_eq_getLastD]
    rfl
  refine ⟨hbound, heq, ?_, ?_⟩
  · intro n
    rw [showSeq_main_eq_part001]
    exact hbound n
  · rw [showSeq_main_eq_part001]
    exact heq

/-- Witness for C6: two successive `show` calls on an initially panel-free
workspace leave exactly one panel whose text is the second argument. -/
theorem C6_single_panel_overwrite_witness :
    (∀ n : ℕ,
      (auditContents (showSeq_part001 (["first", "second"].take n) sampleWorkspace)).length
        ≤ 1) ∧
    auditContents (showSeq_part001 ["first", "second"] sampleWorkspace) = ["second"] ∧
    (∀ n : ℕ,
      (auditContents (showSeq_main (["first", "second"].take n) sampleWorkspace)).length
        ≤ 1) ∧
    auditContents (showSeq_main ["first", "second"] sampleWorkspace) = ["second"] :=
  C6_single_panel_overwrite sampleWorkspace ["first", "second"]
    (by decide) (by decide) (by decide)

/-- A workspace with no audit leaf whose host cannot allocate a right-sidebar
surface. -/
def noPanelWorkspace : Workspace := ⟨[⟨"markdown", "my note"⟩], false⟩

/-- C7 (evaluating the code at the failing input): when no surface can be
allocated, `src/main.ts` does not fail with `PanelUnavailable` — after logging
it dereferences the undefined leaf's view and throws a TypeError, which
`runAudit` reports with the generic network-failure Notice; the `requestUrl`
variant behaves as specified (`PanelUnavailable` with its own Notice). -/
theorem C7_no_surface_behavior :
    showAuditInSidebar_main "result text" noPanelWorkspace
      = (noPanelWorkspace, .error .typeErrorUndefinedView) ∧
    (runAudit_main sampleSettings "note" okResponse noPanelWorkspace).outcome
      = .error (.js .typeErrorUndefinedView) ∧
    (runAudit_main sampleSettings "note" okResponse noPanelWorkspace).notices
      = ["Privacy Audit: Running audit…",
         "Privacy Audit: Failed to get response from OpenAI (see console for details)."] ∧
    (showAuditInSidebar_part001 "result text" noPanelWorkspace).outcome
      = .error .PanelUnavailable ∧
    (showAuditInSidebar_part001 "result text" noPanelWorkspace).notices
      = ["Privacy audit: could not open the side panel for results."] := by
  decide

/-- C8 counterexample: on identical inputs the two implementations do NOT
construct identical request bodies — the user-message prefix wording differs. -/
theorem C8_counterexample :
    (callOpenAI_main sampleSettings "sk-key" "note" okResponse).1.body
      ≠ (callOpenAI_part001 sampleSettings "sk-key" "note" okResponse).1.body := by
  decide

/-- C8 (amended): the two implementations agree on URL, method, headers,
model, temperature, max_tokens, message roles and the system message; the user
messages agree except for their fixed prefixes ("&" versus "and"); and every
identical response is mapped to the same success value or the same error kind
(only the thrown message wording differs). -/
theorem C8_common_contract (settings : PrivacyAuditSettings) (apiKey noteText : String)
    (resp : HttpResponse) :
    (request_main settings apiKey noteText).url
      = (request_part001 settings apiKey noteText).url ∧
    (request_main settings apiKey noteText).method
      = (request_part001 settings apiKey noteText).method ∧
    (request_main settings apiKey noteText).contentType
      = (request_part001 settings apiKey noteText).contentType ∧
    (request_main settings apiKey noteText).authorization
      = (request_part001 settings apiKey noteText).authorization ∧
    (buildBody_main settings noteText).model = (buildBody_part001 settings noteText).model ∧
    (buildBody_main settings noteText).temperature
      = (buildBody_part001 settings noteText).temperature ∧
    (buildBody_main settings noteText).max_tokens
      = (buildBody_part001 settings noteText).max_tokens ∧
    ((buildBody_main settings noteText).messages.map ChatMessage.role
      = (buildBody_part001 settings noteText).messages.map ChatMessage.role) ∧
    ((buildBody_main settings noteText).messages.get? 0
      = (buildBody_part001 settings noteText).messages.get? 0) ∧
    (((buildBody_main settings noteText).messages.map ChatMessage.content).get? 1
      = some ("Here is the full text of my note. Please perform the privacy & security audit described:\n\n"
                ++ noteText)) ∧
    (((buildBody_part001 settings noteText).messages.map ChatMessage.content).get? 1
      = some ("Here is the full text of my note. Please perform the privacy and security audit described:\n\n"
                ++ noteText)) ∧
    handleResponse_main resp = handleResponse_part001 resp := by
  refine ⟨rfl, rfl, rfl, rfl, rfl, rfl, rfl, rfl, rfl, rfl, rfl, ?_⟩
  simp [handleResponse_main, handleResponse_part001, ge_iff_le]

/-- A string-contains check (JavaScript `String.prototype.includes`). -/
def containsStr (hay needle : String) : Bool :=
  (List.range (hay.length + 1)).any (fun i => needle.data.isPrefixOf (hay.data.drop i))

/-- A non-2xx response whose body text echoes the configured api key. -/
def leakResponse : HttpResponse :=
  ⟨401, "Unauthorized", "Invalid API key: sk-secret123",
   .error "Unexpected token I in JSON at position 0"⟩

/-- C9 counterexample: when the remote error body echoes the api key, the
`requestUrl` variant's failure Notice (which appends the thrown error message,
and with it the response body) contains the configured api key verbatim. -/
theorem C9_counterexample :
    ((runAudit_part001 ⟨"sk-secret123", "gpt-4.1-mini", "audit prompt", 900⟩ "my note"
        leakResponse sampleWorkspace).notices.any
      (fun notice => containsStr notice "sk-secret123")) = true := by
  decide

/-- C9 (amended): neither implementation ever interpolates the api key into a
notification: for any two configurations differing only in a (non-blank) api
key, the same note and the same response produce identical Notices, so a
notification can contain the key only when the fixed wording or the
response-derived text already does. -/
theorem C9_no_key_interpolation (settings : PrivacyAuditSettings) (k1 k2 noteText : String)
    (resp : HttpResponse) (w : Workspace)
    (h1 : jsTrim k1 ≠ "") (h2 : jsTrim k2 ≠ "") :
    (runAudit_main { settings with openaiApiKey := k1 } noteText resp w).notices
      = (runAudit_main { settings with openaiApiKey := k2 } noteText resp w).notices ∧
    (runAudit_part001 { settings with openaiApiKey := k1 } noteText resp w).notices
      = (runAudit_part001 { settings with openaiApiKey := k2 } noteText resp w).notices := by
  constructor
  · by_cases hn : jsTrim noteText = ""
    · simp [runAudit_main, h1, h2, hn]
    · cases hresp : handleResponse_main resp with
      | error e => simp [runAudit_main, h1, h2, hn, hresp]
      | ok v =>
        cases hs : showAuditInSidebar_main (jsString v) w with
        | mk w2 r => cases r <;> simp [runAudit_main, h1, h2, hn, hresp, hs]
  · by_cases hn : jsTrim noteText = ""
    · simp [runAudit_part001, h1, h2, hn]
    · cases hresp : handleResponse_part001 resp with
      | error e => simp [runAudit_part001, h1, h2, hn, hresp]
      | ok v => simp [runAudit_part001, h1, h2, hn, hresp]

/-- Witness for the amended C9 at two concrete api keys. -/
theorem C9_no_key_interpolation_witness :
    (runAudit_main { sampleSettings with openaiApiKey := "sk-alpha" } "my note"
        leakResponse sampleWorkspace).notices
      = (runAudit_main { sampleSettings with openaiApiKey := "sk-beta" } "my note"
          leakResponse sampleWorkspace).notices ∧
    (runAudit_part001 { sampleSettings with openaiApiKey := "sk-alpha" } "my note"
        leakResponse sampleWorkspace).notices
      = (runAudit_part001 { sampleSettings with openaiApiKey := "sk-beta" } "my note"
          leakResponse sampleWorkspace).notices :=
  C9_no_key_interpolation sampleSettings "sk-alpha" "sk-beta" "my note" leakResponse
    sampleWorkspace (by decide) (by decide)

/-- C10: on a 2xx response whose extracted `choices[0].message.content` is the
empty string, both implementations fail with `EmptyResponse`; consequently
every successfully returned value is truthy — in particular a returned string
is non-empty. -/
theorem C10_empty_content_rejected (resp : HttpResponse)
    (h1 : 200 ≤ resp.status) (h2 : resp.status < 300) :
    (∀ data : JValue, resp.jsonParsed = .ok data →
      extractContent data = some (.str "") →
      handleResponse_main resp = .error .EmptyResponse ∧
      handleResponse_part001 resp = .error .EmptyResponse) ∧
    (∀ v : JValue, handleResponse_main resp = .ok v → jsTruthy v = true) ∧
    (∀ v : JValue, handleResponse_part001 resp = .ok v → jsTruthy v = true) ∧
    (∀ t : String, handleResponse_main resp = .ok (.str t) → t ≠ "") := by
  have hcond : ¬(resp.status < 200 ∨ 300 ≤ resp.status) := by omega
  refine ⟨?_, ?_, ?_, ?_⟩
  · intro data hd hx
    constructor <;>
      simp [handleResponse_main, handleResponse_part001, hcond, ge_iff_le, hd, hx, jsTruthy]
  · intro v hv
    unfold handleResponse_main at hv
    rw [if_neg hcond] at hv
    cases hj : resp.jsonParsed with
    | error m => simp [hj] at hv
    | ok data =>
      rw [hj] at hv
      cases hx : extractContent data with
      | none => simp [hx] at hv
      | some m =>
        simp only [hx] at hv
        by_cases hm : jsTruthy m = true
        · rw [if_pos hm] at hv
          injection hv with hmv
          rw [← hmv]
          exact hm
        · rw [if_neg hm] at hv
          cases hv
  · intro v hv
    unfold handleResponse_part001 at hv
    rw [if_neg (by omega : ¬(resp.status < 200 ∨ resp.status ≥ 300))] at hv
    cases hj : resp.jsonParsed with
    | error m => simp [hj] at hv
    | ok data =>
      rw [hj] at hv
      cases hx : extractContent data with
      | none => simp [hx] at hv
      | some m =>
        simp only [hx] at hv
        by_cases hm : jsTruthy m = true
        · rw [if_pos hm] at hv
          injection hv with hmv
          rw [← hmv]
          exact hm
        · rw [if_neg hm] at hv
          cases hv
  · intro t hv
    unfold handleResponse_main at hv
    rw [if_neg hcond] at hv
    cases hj : resp.jsonParsed with
    | error m => simp [hj] at hv
    | ok data =>
      rw [hj] at hv
      cases hx : extractContent data with
      | none => simp [hx] at hv
      | some m =>
        simp only [hx] at hv
        by_cases hm : jsTruthy m = true
        · rw [if_pos hm] at hv
          injection hv with hmv
          rw [hmv] at hm
          simpa [jsTruthy] using hm
        · rw [if_neg hm] at hv
          cases hv

/-- Witness for C10: the simulated 2xx response with empty content fails with
`EmptyResponse` in both implementations. -/
theorem C10_empty_content_rejected_witness :
    handleResponse_main emptyContentResponse = .error .EmptyResponse ∧
    handleResponse_part001 emptyContentResponse = .error .EmptyResponse :=
  (C10_empty_content_rejected emptyContentResponse (by decide) (by decide)).1
    (.obj [("choices", .arr [.obj [("message", .obj [("content", .str "")])]])]) rfl rfl
